import Mathlib

/-!
Verification of the Voice-TimeLogger-Agent processing pipeline.

This file gives a shallow embedding, in Lean, of the pipeline code of the
Voice-TimeLogger-Agent repository and proves properties of it:

* the duration-normalization routine LLMExtractor._format_duration
  (src/services/extraction/llm_extractor.py),
* the extraction stage ExtractionManager.extract
  (src/services/extraction/extraction_manager.py),
* the notification fan-out NotificationManager.send_notification and the
  channel senders EmailNotifier.send_meeting_notification and
  SlackNotifier.send_meeting_notification
  (src/services/notification/),
* the storage step GoogleSheetsStorage.store_meeting_data
  (src/services/storage/google_sheets_storage.py), and
* the HTTP-route orchestration upload_audio (src/routes/speech.py).

Modelling conventions:

* Python dictionaries with a fixed key set become Lean structures with
  Option-valued fields (none = key absent or None).
* External effects (the LLM provider, the SMTP transport, the Google Sheets
  API, wall-clock timestamps, dateutil parsing) are oracle parameters of the
  embedded functions, so a theorem quantifying over the oracle covers every
  possible behaviour of the collaborator.
* Python floats are modelled by exact rationals; every concrete value used
  in a theorem below is exactly representable in binary floating point and
  all arithmetic on it is exact, so code and model agree at those points.
* Python strings are Lean strings; character-level routines work on the
  underlying character lists.  Regular-expression matching and str.strip()
  are modelled for the ASCII character classes.
* Logging never fails and is not modelled.  Exceptions become explicit
  outcome values at the point where the source code catches them.
-/

/-- Python str.isspace characters matched by the regex class \s and by
str.strip() (ASCII range): space, tab, newline, carriage return, vertical
tab, form feed. -/
def pyIsSpace (c : Char) : Bool :=
  c == ' ' || c == '\t' || c == '\n' || c == '\r' || c == Char.ofNat 11 || c == Char.ofNat 12

/-- Decimal digit characters of a natural number, most significant first,
with explicit fuel so that the kernel can evaluate it (fuel n + 1 always
suffices). Embeds Python str(int) for non-negative values. -/
def natCharsGo : Nat → Nat → List Char
  | 0, _ => []
  | fuel + 1, n =>
    if n < 10 then [Char.ofNat (48 + n)]
    else natCharsGo fuel (n / 10) ++ [Char.ofNat (48 + n % 10)]

/-- Decimal digit characters of a natural number, most significant first. -/
def natChars (n : Nat) : List Char := natCharsGo (n + 1) n

/-- Python str(int): decimal representation with a leading minus sign for
negative values. -/
def intStr (i : ℤ) : List Char :=
  if i < 0 then '-' :: natChars i.natAbs else natChars i.toNat

/-- Python str.strip(): drop whitespace from both ends. -/
def stripChars (cs : List Char) : List Char :=
  ((cs.dropWhile pyIsSpace).reverse.dropWhile pyIsSpace).reverse

/-- The regex match re.match(r'^\d+h\s+\d+m$', s) from
LLMExtractor._format_duration: one or more digits, the letter h, one or
more whitespace characters, one or more digits, the letter m, end of
string.  The greedy quantifiers admit no backtracking alternatives here, so
takeWhile/dropWhile is an exact model. -/
def matchXhYm (cs : List Char) : Bool :=
  let d1 := cs.takeWhile Char.isDigit
  if d1.isEmpty then false
  else
    match cs.dropWhile Char.isDigit with
    | 'h' :: r2 =>
      let w := r2.takeWhile pyIsSpace
      if w.isEmpty then false
      else
        let r3 := r2.dropWhile pyIsSpace
        let d2 := r3.takeWhile Char.isDigit
        if d2.isEmpty then false
        else r3.dropWhile Char.isDigit == ['m']
    | _ => false

/-- Numeric value of a list of decimal digit characters. -/
def digitsVal (ds : List Char) : Nat :=
  ds.foldl (fun n c => 10 * n + (c.toNat - 48)) 0

/-- The numeric-prefix extraction re.match(r'(\d+\.?\d*)', s) followed by
float() on the matched group: one or more digits, an optional dot, zero or
more digits, anchored at the start of the string.  Returns the parsed value
or none when the regex does not match at position 0. -/
def leadNumParse (cs : List Char) : Option ℚ :=
  let d1 := cs.takeWhile Char.isDigit
  if d1.isEmpty then none
  else
    match cs.dropWhile Char.isDigit with
    | '.' :: r2 =>
        let d2 := r2.takeWhile Char.isDigit
        some ((digitsVal d1 : ℚ) + (digitsVal d2 : ℚ) / (10 ^ d2.length))
    | _ => some (digitsVal d1 : ℚ)

/-- Python float(s) on a whole string: optional surrounding whitespace, an
optional sign, a finite decimal mantissa, and an optional exponent.  The
special forms inf and nan, and digit-group underscores, are modelled as
parse failures; no concrete input in this file uses them. -/
def pyFloatChars (cs : List Char) : Option ℚ :=
  let cs1 := stripChars cs
  let signed : ℚ × List Char :=
    match cs1 with
    | '+' :: t => (1, t)
    | '-' :: t => (-1, t)
    | _ => (1, cs1)
  let ip := signed.2.takeWhile Char.isDigit
  let r1 := signed.2.dropWhile Char.isDigit
  let mant : Option (ℚ × List Char) :=
    match r1 with
    | '.' :: r2 =>
        let fp := r2.takeWhile Char.isDigit
        if ip.isEmpty && fp.isEmpty then none
        else some ((digitsVal ip : ℚ) + (digitsVal fp : ℚ) / (10 ^ fp.length),
                   r2.dropWhile Char.isDigit)
    | _ => if ip.isEmpty then none else some ((digitsVal ip : ℚ), r1)
  match mant with
  | none => none
  | some (v, rest) =>
      match rest with
      | [] => some (signed.1 * v)
      | e :: r4 =>
          if e == 'e' || e == 'E' then
            let esigned : ℤ × List Char :=
              match r4 with
              | '+' :: t => (1, t)
              | '-' :: t => (-1, t)
              | _ => (1, r4)
            let ed := esigned.2.takeWhile Char.isDigit
            if ed.isEmpty || !(esigned.2.dropWhile Char.isDigit).isEmpty then none
            else some (signed.1 * v * (10 : ℚ) ^ (esigned.1 * (digitsVal ed : ℤ)))
          else none

/-- Python int() on a numeric value: truncation toward zero. -/
def truncQ (q : ℚ) : ℤ := if 0 ≤ q then ⌊q⌋ else -⌊-q⌋

/-- The character list of the f-string f"{hours}h {minutes}m". -/
def fmtChars (a b : ℤ) : List Char :=
  intStr a ++ 'h' :: ' ' :: (intStr b ++ ['m'])

/-- The numeric branch of LLMExtractor._format_duration:
hours = int(value); minutes = int((value - hours) * 60); "{hours}h {minutes}m". -/
def fmtQ (q : ℚ) : String :=
  ⟨fmtChars (truncQ q) (truncQ ((q - (truncQ q : ℚ)) * 60))⟩

/-- A duration value as the extractor may receive it from the JSON response:
either a number or a string. -/
inductive DurVal
  | num (q : ℚ)
  | str (s : String)
deriving DecidableEq

/-- LLMExtractor._format_duration (src/services/extraction/llm_extractor.py,
lines 74-108).  A string already matching "Xh Ym" (checked on the stripped
string, returning the original) passes through; otherwise a numeric prefix
of a string, or the float() value of the whole string, or the number itself
is decomposed into integer hours and truncated minutes; when every parse
fails the original string is returned verbatim (the except branch returns
str(hours_value), and hours_value is only rebound after a parse that cannot
subsequently fail). -/
def formatDuration : DurVal → String
  | .num q => fmtQ q
  | .str s =>
      if matchXhYm (stripChars s.data) then s
      else
        match leadNumParse s.data with
        | some q => fmtQ q
        | none =>
            match pyFloatChars s.data with
            | some q => fmtQ q
            | none => s

/-- Modelled from the spec: the normalization formula the specification
states for numeric hours values, hours = floor(value) and
minutes = round((value - hours) * 60), rendered with the same f-string as
the code.  Used only to compare the specified formula with the code. -/
def durationSpecRound (q : ℚ) : String :=
  ⟨fmtChars ⌊q⌋ (round ((q - (⌊q⌋ : ℚ)) * 60))⟩

/-- ExtractionStatus enum (src/enums/status_codes.py). -/
inductive ExtractionStatus
  | pending | processing | complete | incomplete | failed
deriving DecidableEq

/-- StorageStatus enum (src/enums/status_codes.py). -/
inductive StorageStatus
  | pending | stored | failed
deriving DecidableEq

/-- NotificationStatus enum (src/enums/notification.py); partialStatus
models the PARTIAL member. -/
inductive NotificationStatus
  | pending | sent | failed | skipped | partialStatus
deriving DecidableEq

/-- Per-channel status strings used by the notifier implementations:
"pending", "sent", "failed", "skipped", "not_implemented". -/
inductive ChannelStatus
  | pending | sent | failed | skipped | notImplemented
deriving DecidableEq

/-- The result dictionary a channel notifier returns (its notification_id
and timestamp fields carry no pipeline-relevant information and are not
modelled). -/
structure ChannelResult where
  notification_type : String := "email"
  status : ChannelStatus := .pending
  message : Option String := none
  error : Option String := none
deriving DecidableEq

/-- One entry of the "channels" list built by
NotificationManager.send_notification: {"type": ..., "status": ...,
"details": ...}. -/
structure ChannelEntry where
  ctype : String
  status : ChannelStatus
  details : ChannelResult
deriving DecidableEq

/-- The aggregate result of NotificationManager.send_notification. -/
structure NotifResult where
  channels : List ChannelEntry := []
  overall_status : NotificationStatus := .skipped
  message : Option String := none
deriving DecidableEq

/-- The meeting-data dictionary flowing through the pipeline: the keys of
DEFAULT_MEETING_DATA (src/services/extraction/config.py) plus the status
and error keys the pipeline stages add.  none models an absent key or a
None value. -/
structure MeetingData where
  customer_name : Option String := none
  meeting_date : Option String := none
  start_time : Option String := none
  end_time : Option String := none
  total_hours : Option String := none
  notes : Option String := none
  timestamp : Option String := none
  extraction_status : Option ExtractionStatus := none
  extraction_error : Option String := none
  storage_status : Option StorageStatus := none
  storage_error : Option String := none
  notification_status : Option NotificationStatus := none
  notification_message : Option String := none
  notification_error : Option String := none
  notification_channels : Option (List ChannelEntry) := none
deriving DecidableEq

/-- The field values of the JSON object the LLM provider returns, already
parsed (customer_name, meeting_date, start_time, end_time, total_hours,
notes; each may be null). -/
structure LLMRaw where
  customer_name : Option String := none
  meeting_date : Option String := none
  start_time : Option String := none
  end_time : Option String := none
  total_hours : Option DurVal := none
  notes : Option String := none

/-- Outcome of the call self._llm_extractor.extract(text) inside
ExtractionManager.extract: either the provider and JSON parse succeed
(success, with the fields and the wall-clock timestamp the extractor reads
at line 183 of llm_extractor.py), or some exception is raised inside the
try block of the manager before or during the call (failure, with str(e)).
The operations after the call (the merge loop and the completeness check)
are pure and cannot raise. -/
inductive LLMCall
  | success (raw : LLMRaw) (llmTime : String)
  | failure (msg : String)

/-- Python truthiness of an optional string: None and "" are falsy. -/
def truthyO (o : Option String) : Bool := o.getD "" != ""

/-- The successful path of LLMExtractor.extract
(src/services/extraction/llm_extractor.py, lines 111-200): defaults merged
with the non-null provider fields, the meeting date passed through dateutil
(dateNorm none models a parse failure, in which case the original string is
kept), total_hours normalized through _format_duration, notes defaulting to
the input text, timestamp set to the wall-clock time after the call, and
extraction_status set to COMPLETE on this record. -/
def LLMExtractor.extract (text : String) (raw : LLMRaw) (llmTime : String)
    (dateNorm : String → Option String) : MeetingData :=
  { customer_name := raw.customer_name
    meeting_date := raw.meeting_date.map (fun d => if d != "" then (dateNorm d).getD d else d)
    start_time := raw.start_time
    end_time := raw.end_time
    total_hours := raw.total_hours.map formatDuration
    notes := some (raw.notes.getD text)
    timestamp := some llmTime
    extraction_status := some .complete }

/-- Pick the extractor's value when it is non-null, otherwise keep the
existing value: one iteration of the merge loop
"if key in llm_result and llm_result[key] is not None". -/
def pickField {α : Type} (llmv basev : Option α) : Option α :=
  match llmv with
  | some v => some v
  | none => basev

/-- The merge loop of ExtractionManager.extract (lines 132-134): every key
of DEFAULT_MEETING_DATA whose extractor value is non-null replaces the
value in the accumulating record. -/
def ExtractionManager.mergeFields (base llm : MeetingData) : MeetingData :=
  { base with
    customer_name := pickField llm.customer_name base.customer_name
    meeting_date := pickField llm.meeting_date base.meeting_date
    start_time := pickField llm.start_time base.start_time
    end_time := pickField llm.end_time base.end_time
    total_hours := pickField llm.total_hours base.total_hours
    notes := pickField llm.notes base.notes
    timestamp := pickField llm.timestamp base.timestamp }

/-- ExtractionManager.extract (src/services/extraction/extraction_manager.py,
lines 78-208).  The record starts from defaults with notes = the input
text, timestamp = the creation wall-clock time and status PENDING; on any
exception in the try block the status becomes FAILED with
extraction_error = str(e) and the record is still returned; on success the
non-null extractor fields are merged and the completeness gate
(customer_name and total_hours both non-null, REQUIRED_MEETING_FIELDS of
src/services/extraction/config.py) decides COMPLETE versus INCOMPLETE. -/
def ExtractionManager.extract (text : String) (tCreate : String) (llm : LLMCall)
    (dateNorm : String → Option String) : MeetingData :=
  let base : MeetingData :=
    { notes := some text, timestamp := some tCreate, extraction_status := some .pending }
  match llm with
  | .failure msg =>
      { base with extraction_status := some .failed, extraction_error := some msg }
  | .success raw llmTime =>
      let llmRes := LLMExtractor.extract text raw llmTime dateNorm
      let merged := ExtractionManager.mergeFields base llmRes
      if merged.customer_name.isSome && merged.total_hours.isSome then
        { merged with extraction_status := some .complete }
      else
        { merged with extraction_status := some .incomplete }

/-- The application settings consumed by the notification and routing code
(config/config.py); a missing optional string setting is modelled by "",
matching Python falsiness checks.  The Settings class defines no
NOTIFICATIONS_DEFAULT field: the read of settings.NOTIFICATIONS_DEFAULT at
speech.py line 138 raises AttributeError whenever it is evaluated, which is
modelled at the route level below. -/
structure Settings where
  ENABLE_EMAIL_NOTIFICATIONS : Bool := false
  ENABLE_SLACK_NOTIFICATIONS : Bool := false
  SMTP_SERVER : String := ""
  SENDER_EMAIL : String := ""
  SENDER_PASSWORD : String := ""
  RECIPIENT_EMAILS : String := ""
  SLACK_WEBHOOK_URL : String := ""

/-- The email configuration EmailNotifier reads at construction. -/
structure EmailConfig where
  smtp_server : String := ""
  sender_email : String := ""
  sender_password : String := ""
  recipient_emails : List String := []

/-- Split a character list on commas (Python str.split(',')). -/
def splitCommaGo : List Char → List Char → List (List Char)
  | [], acc => [acc.reverse]
  | c :: t, acc => if c == ',' then acc.reverse :: splitCommaGo t [] else splitCommaGo t (c :: acc)

/-- Recipient parsing in EmailNotifier.__init__: a non-empty
RECIPIENT_EMAILS setting is split on commas and each entry stripped; an
empty setting yields no recipients. -/
def parseRecipients (s : String) : List String :=
  if s == "" then []
  else (splitCommaGo s.data []).map (fun e => ⟨stripChars e⟩)

/-- The EmailConfig an EmailNotifier constructed without arguments (as the
route does) derives from the settings. -/
def emailConfigOf (st : Settings) : EmailConfig :=
  { smtp_server := st.SMTP_SERVER
    sender_email := st.SENDER_EMAIL
    sender_password := st.SENDER_PASSWORD
    recipient_emails := parseRecipients st.RECIPIENT_EMAILS }

/-- EmailNotifier.send_meeting_notification
(src/services/notification/email_notifier.py, lines 86-160).  The transport
oracle maps the index of a send attempt to none (delivery succeeds) or
some errMsg (the SMTP send raises).  The second component counts how many
send attempts the function performs.  Missing recipients or incomplete
configuration short-circuit to "skipped" with no attempt; otherwise exactly
one send is attempted and its outcome becomes "sent" or "failed". -/
def EmailNotifier.send_meeting_notification (cfg : EmailConfig)
    (transport : Nat → Option String) : ChannelResult × Nat :=
  if cfg.recipient_emails.isEmpty then
    ({ notification_type := "email", status := .skipped,
       message := some "No recipient emails configured" }, 0)
  else if cfg.smtp_server == "" || cfg.sender_email == "" || cfg.sender_password == "" then
    ({ notification_type := "email", status := .skipped,
       message := some "Email configuration incomplete" }, 0)
  else
    match transport 0 with
    | none => ({ notification_type := "email", status := .sent }, 1)
    | some e => ({ notification_type := "email", status := .failed, error := some e }, 1)

/-- SlackNotifier.send_meeting_notification
(src/services/notification/slack_notifier.py): skipped without a webhook
URL, otherwise the stub returns status "not_implemented". -/
def SlackNotifier.send_meeting_notification (webhook_url : String) : ChannelResult :=
  if webhook_url == "" then
    { notification_type := "slack", status := .skipped,
      message := some "No Slack webhook URL configured" }
  else
    { notification_type := "slack", status := .notImplemented,
      message := some "Slack notifications not fully implemented yet" }

/-- The fan-out and aggregation logic of
NotificationManager.send_notification
(src/services/notification/notification_manager.py, lines 48-108), over the
results the two channel senders return: each enabled channel contributes an
entry to the channels list; overall_status is "sent" when some enabled
channel reported "sent", else "partial" when the channels list is
non-empty, else "skipped" with a message. -/
def NotificationManager.fanout (email_enabled slack_enabled : Bool)
    (emailRes slackRes : ChannelResult) : NotifResult :=
  let channels :=
    (if email_enabled then [ChannelEntry.mk "email" emailRes.status emailRes] else []) ++
    (if slack_enabled then [ChannelEntry.mk "slack" slackRes.status slackRes] else [])
  let sentAny :=
    (email_enabled && (emailRes.status == ChannelStatus.sent)) ||
    (slack_enabled && (slackRes.status == ChannelStatus.sent))
  if sentAny then
    { channels := channels, overall_status := .sent }
  else if !channels.isEmpty then
    { channels := channels, overall_status := .partialStatus }
  else
    { channels := channels, overall_status := .skipped,
      message := some "No notification channels enabled" }

/-- NotificationManager.send_notification with the concrete channel
implementations the manager lazily constructs from the settings. -/
def NotificationManager.send_notification (st : Settings)
    (transport : Nat → Option String) : NotifResult :=
  NotificationManager.fanout st.ENABLE_EMAIL_NOTIFICATIONS st.ENABLE_SLACK_NOTIFICATIONS
    (EmailNotifier.send_meeting_notification (emailConfigOf st) transport).1
    (SlackNotifier.send_meeting_notification st.SLACK_WEBHOOK_URL)

/-- Outcome of one storage call: the sheet-initialization step may raise
before the record's timestamp is touched (initError), the row append may
raise after it (appendError), or everything succeeds (ok).  Every
exception surfaces as a StorageError whose message is carried here. -/
inductive StorageOutcome
  | ok
  | initError (msg : String)
  | appendError (msg : String)

/-- Lines 325-326 of google_sheets_storage.py: the record's timestamp is
set to the current time only when the key is absent or falsy. -/
def withDefaultTimestamp (md : MeetingData) (t : String) : MeetingData :=
  if truthyO md.timestamp then md else { md with timestamp := some t }

/-- GoogleSheetsStorage.store_meeting_data
(src/services/storage/google_sheets_storage.py, lines 288-375): the record
is mutated (default timestamp only) unless initialization failed first;
the second component is none on success and some errMsg when a
StorageError propagates.  The StorageManager wrapper re-raises the same
error and adds nothing observable to the record. -/
def GoogleSheetsStorage.store_meeting_data (md : MeetingData) (out : StorageOutcome)
    (tStore : String) : MeetingData × Option String :=
  match out with
  | .ok => (withDefaultTimestamp md tStore, none)
  | .initError msg => (md, some msg)
  | .appendError msg => (withDefaultTimestamp md tStore, some msg)

/-- Hint merging in upload_audio (src/routes/speech.py, lines 183-190):
truthy hints are appended to the transcription as an extra sentence. -/
def withHints (text : String) (customer_hint date_hint : Option String) : String :=
  if truthyO customer_hint || truthyO date_hint then
    text ++ "\n\n" ++ "Additional information: "
      ++ (if truthyO customer_hint then "Customer is " ++ customer_hint.getD "" ++ ". " else "")
      ++ (if truthyO date_hint then "Meeting date is " ++ date_hint.getD "" ++ "." else "")
  else text

/-- Outcome of speech_manager.transcribe_audio_data: a completed
transcription with text, a result whose processing_status is not
"completed" (the route then answers success=False), or an exception (the
route then answers with a 500 error). -/
inductive TranscriptionOutcome
  | completed (text : String)
  | notCompleted (err : String)
  | raisedError (err : String)

/-- The response of the upload route: an HTTP 400, an HTTP 500, or a
ProcessingResponse body. -/
inductive UploadResult
  | badRequest (detail : String)
  | serverError (detail : String)
  | response (success : Bool) (message : String) (data : Option MeetingData)
deriving DecidableEq

/-- Which pipeline stages a request execution reached. -/
structure UploadTrace where
  transcriptionCalled : Bool := false
  extractionCalled : Bool := false
  storageCalled : Bool := false
  notificationCalled : Bool := false
  backgroundScheduled : Bool := false
deriving DecidableEq

/-- Which of the two recorded stages the post-transcription part reached. -/
structure PostTrace where
  storageCalled : Bool := false
  notificationCalled : Bool := false
deriving DecidableEq

/-- Oracles and request parameters consumed after transcription.
should_notify is the value the route computed at speech.py line 138; the
pipeline body is only ever reached when the request supplied an explicit
notify value (otherwise line 138 raises AttributeError first), so it is a
plain Bool here. -/
structure StageEnv where
  customer_hint : Option String := none
  date_hint : Option String := none
  should_notify : Bool := false
  settings : Settings := {}
  tCreate : String := "T0"
  tStore : String := "TS"
  llm : LLMCall := .failure "no call"
  storage : StorageOutcome := .ok
  dateNorm : String → Option String := fun _ => none
  emailTransport : Nat → Option String := fun _ => none

/-- The post-transcription body of upload_audio (src/routes/speech.py,
lines 180-227): hint merging, extraction (whose result is returned even
when its status is FAILED), storage (attempted unconditionally on the
extraction result; a StorageError is caught and recorded), and the
notification step guarded by storage_status == STORED, the notify decision
and the channel-enable settings.  The returned trace records which stages
ran. -/
def upload_audio_core (transcript : String) (env : StageEnv) : MeetingData × PostTrace :=
  let text := withHints transcript env.customer_hint env.date_hint
  let md0 := ExtractionManager.extract text env.tCreate env.llm env.dateNorm
  let stored := GoogleSheetsStorage.store_meeting_data md0 env.storage env.tStore
  let md2 :=
    match stored.2 with
    | none => { stored.1 with storage_status := some StorageStatus.stored }
    | some msg => { stored.1 with storage_status := some StorageStatus.failed,
                                  storage_error := some msg }
  let should_notify := env.should_notify
  if md2.storage_status == some StorageStatus.stored then
    if should_notify && (env.settings.ENABLE_EMAIL_NOTIFICATIONS
                          || env.settings.ENABLE_SLACK_NOTIFICATIONS) then
      let nres := NotificationManager.send_notification env.settings env.emailTransport
      ({ md2 with notification_status := some nres.overall_status,
                  notification_channels := some nres.channels },
       { storageCalled := true, notificationCalled := true })
    else
      ({ md2 with notification_status := some NotificationStatus.skipped,
                  notification_message := some (if !should_notify then
                      "Notifications not requested"
                    else "No notification channels enabled") },
       { storageCalled := true, notificationCalled := false })
  else
    (md2, { storageCalled := true, notificationCalled := false })

/-- os.path.splitext on a separator-free file name, extension part: the
suffix from the last dot, or empty when there is no dot or only leading
dots precede it. -/
def splitextExtn (cs : List Char) : List Char :=
  let rev := cs.reverse
  let tl := rev.takeWhile (fun c => c != '.')
  if tl.length == rev.length then []
  else if (rev.drop (tl.length + 1)).all (fun c => c == '.') then []
  else '.' :: tl.reverse

/-- The file-format validation of upload_audio (lines 142-147): the
lower-cased splitext extension, stripped of leading dots, must be one of
the supported formats, and must be non-empty. -/
def validExtension (filename : String) : Bool :=
  let ext := (splitextExtn filename.data).map Char.toLower
  if ext.isEmpty then false
  else (["mp3", "wav", "m4a", "mpeg", "mpga", "webm"].map String.data).contains
    (ext.dropWhile (fun c => c == '.'))

/-- The full request environment of one call to upload_audio.  The content
is the uploaded byte string (one Nat per byte). -/
structure UploadEnv extends StageEnv where
  filename : String := "audio.mp3"
  content : List Nat := [0]
  notify : Option Bool := none
  transcription : TranscriptionOutcome := .completed ""
  request_id : String := "req"
  nowTag : String := "now"

/-- The message of the large-file early response (lines 163-167). -/
def bgMessage (env : UploadEnv) : String :=
  "Audio upload received (" ++ toString env.content.length
    ++ " bytes). Processing in background. Check status with processing ID: upload_"
    ++ env.nowTag ++ "_" ++ env.request_id

/-- upload_audio (src/routes/speech.py, lines 102-250).  Line 138 runs
before the try block and before any validation: should_notify = notify if
notify is not None else settings.NOTIFICATIONS_DEFAULT.  When the notify
form field is absent the else branch evaluates and raises AttributeError
(Settings defines no NOTIFICATIONS_DEFAULT), which escapes the endpoint as
an HTTP 500 with no stage run.  When notify is provided the conditional
expression short-circuits and the route proceeds: extension validation,
emptiness check, the 5 MB early return (which schedules nothing and
performs no processing), transcription, and the post-transcription
pipeline.  The trace records which stages ran; the early-return branch
runs none and schedules no background task (the code computes a
processing id but never registers a task). -/
def upload_audio (env : UploadEnv) : UploadResult × UploadTrace :=
  match env.notify with
  | none =>
      (.serverError "AttributeError: Settings object has no attribute NOTIFICATIONS_DEFAULT",
       {})
  | some b =>
  if !(validExtension env.filename) then
    (.badRequest "Unsupported file format", {})
  else if env.content.isEmpty then
    (.badRequest "Uploaded file is empty", {})
  else if 5 * 1024 * 1024 < env.content.length then
    (.response true (bgMessage env) none, {})
  else
    match env.transcription with
    | .notCompleted err =>
        (.response false ("Transcription failed: " ++ err) none,
         { transcriptionCalled := true })
    | .raisedError err =>
        (.serverError err, { transcriptionCalled := true })
    | .completed text =>
        let core := upload_audio_core text { env.toStageEnv with should_notify := b }
        (.response true "Audio processed and data stored successfully" (some core.1),
         { transcriptionCalled := true, extractionCalled := true,
           storageCalled := core.2.storageCalled,
           notificationCalled := core.2.notificationCalled })

/-- The data of a ProcessingResponse, when the result is one. -/
def responseData : UploadResult → Option MeetingData
  | .response _ _ d => d
  | _ => none

/-- The success flag of a ProcessingResponse, when the result is one
(none for HTTP 400/500 results, which carry no ProcessingResponse). -/
def responseSuccess : UploadResult → Option Bool
  | .response s _ _ => some s
  | _ => none

/-- A run whose LLM extraction raises while everything else succeeds. -/
def envC1 : UploadEnv :=
  { llm := .failure "llm boom", notify := some false, transcription := .completed "hello" }

/-- A run whose LLM extraction raises, used to exhibit the no-raise policy
for requests that supply a notify value. -/
def envC2 : UploadEnv :=
  { llm := .failure "provider down", notify := some false, transcription := .completed "hola" }

/-- A well-formed upload that omits the optional notify form field; the
transcription oracle would succeed, but the request never gets there. -/
def envC2cx : UploadEnv := { transcription := .completed "hola" }

/-- A run where sheet initialization fails and notifications were not
requested. -/
def envC3 : UploadEnv :=
  { storage := .initError "sheet down", notify := some false, transcription := .completed "hey" }

/-- A run whose extraction succeeds with the extractor reading wall-clock
time "T1" while the record was created at wall-clock time "T0". -/
def envC7 : UploadEnv :=
  { llm := .success {} "T1", tCreate := "T0", notify := some false,
    transcription := .completed "hiya" }

/-- A complete email configuration. -/
def cfgC4 : EmailConfig :=
  { smtp_server := "smtp.example.com", sender_email := "sender@example.com",
    sender_password := "pw", recipient_emails := ["dev@example.com"] }

/-- A transport that fails on the first send attempt and would succeed on
any retry. -/
def transportC4 : Nat → Option String :=
  fun n => if n == 0 then some "connection refused" else none

/-- An upload of 5 MB + 1 bytes with an explicit notify value. -/
def envC10 : UploadEnv :=
  { content := List.replicate (5 * 1024 * 1024 + 1) 0, notify := some false }

/-- An upload of 5 MB + 1 bytes that omits the notify form field. -/
def envC10cx : UploadEnv := { content := List.replicate (5 * 1024 * 1024 + 1) 0 }

/-! Helper lemmas about characters, digit strings and truncation. -/

theorem digit_char_ofNat (d : Nat) (h : d < 10) : (Char.ofNat (48 + d)).isDigit = true := by
  interval_cases d <;> decide

theorem isDigit_not_pyspace {c : Char} (h : c.isDigit = true) : pyIsSpace c = false := by
  by_contra hc
  simp only [Bool.not_eq_false, pyIsSpace, Bool.or_eq_true, beq_iff_eq] at hc
  rcases hc with ((((h1 | h1) | h1) | h1) | h1) | h1 <;> subst h1 <;> simp at h

theorem takeWhile_all_append (p : Char → Bool) (c : Char) (hc : p c = false) :
    ∀ (l1 t : List Char), (∀ x ∈ l1, p x = true) → (l1 ++ c :: t).takeWhile p = l1 := by
  intro l1
  induction l1 with
  | nil => intro t _; simp [List.takeWhile_cons, hc]
  | cons a l ih =>
      intro t h
      have ha : p a = true := h a (by simp)
      simp only [List.cons_append, List.takeWhile_cons, ha, if_true]
      rw [ih t (fun x hx => h x (by simp [hx]))]

theorem dropWhile_all_append (p : Char → Bool) (c : Char) (hc : p c = false) :
    ∀ (l1 t : List Char), (∀ x ∈ l1, p x = true) → (l1 ++ c :: t).dropWhile p = c :: t := by
  intro l1
  induction l1 with
  | nil => intro t _; simp [List.dropWhile_cons, hc]
  | cons a l ih =>
      intro t h
      have ha : p a = true := h a (by simp)
      simp only [List.cons_append, List.dropWhile_cons, ha, if_true]
      exact ih t (fun x hx => h x (by simp [hx]))

theorem natCharsGo_all_digit : ∀ (fuel n : Nat), ∀ c ∈ natCharsGo fuel n, c.isDigit = true := by
  intro fuel
  induction fuel with
  | zero => intro n c hc; simp [natCharsGo] at hc
  | succ f ih =>
      intro n c hc
      rw [natCharsGo] at hc
      by_cases h : n < 10
      · simp only [if_pos h, List.mem_singleton] at hc
        subst hc
        exact digit_char_ofNat n h
      · simp only [if_neg h, List.mem_append, List.mem_singleton] at hc
        rcases hc with hc | hc
        · exact ih _ c hc
        · subst hc
          exact digit_char_ofNat _ (Nat.mod_lt _ (by omega))

theorem natCharsGo_cons (fuel : Nat) (hf : fuel ≠ 0) (n : Nat) :
    ∃ c cs, natCharsGo fuel n = c :: cs ∧ c.isDigit = true := by
  induction fuel generalizing n with
  | zero => exact absurd rfl hf
  | succ f ih =>
      rw [natCharsGo]
      by_cases h : n < 10
      · exact ⟨_, _, by rw [if_pos h], digit_char_ofNat n h⟩
      · rw [if_neg h]
        by_cases hf0 : f = 0
        · subst hf0
          exact ⟨_, _, by rw [show natCharsGo 0 (n / 10) = [] from rfl, List.nil_append],
                 digit_char_ofNat _ (Nat.mod_lt _ (by omega))⟩
        · obtain ⟨c, cs, hc, hd⟩ := ih hf0 (n / 10)
          exact ⟨c, cs ++ [Char.ofNat (48 + n % 10)], by rw [hc]; rfl, hd⟩

theorem natChars_all_digit (n : Nat) : ∀ c ∈ natChars n, c.isDigit = true :=
  natCharsGo_all_digit _ _

theorem natChars_cons (n : Nat) : ∃ c cs, natChars n = c :: cs ∧ c.isDigit = true :=
  natCharsGo_cons _ (by omega) _

theorem intStr_of_nonneg (i : ℤ) (h : 0 ≤ i) : intStr i = natChars i.toNat := by
  rw [intStr, if_neg (by omega)]

theorem intStr_head_not_space (i : ℤ) :
    ∃ c cs, intStr i = c :: cs ∧ pyIsSpace c = false := by
  rw [intStr]
  split
  · exact ⟨'-', _, rfl, by decide⟩
  · obtain ⟨c, cs, hc, hd⟩ := natChars_cons i.toNat
    exact ⟨c, cs, hc, isDigit_not_pyspace hd⟩

theorem truncQ_of_nonneg {q : ℚ} (h : 0 ≤ q) : truncQ q = ⌊q⌋ := by
  rw [truncQ, if_pos h]

theorem matchXhYm_shape (l1 l2 : List Char) (h1 : l1 ≠ []) (h2 : l2 ≠ [])
    (hA : ∀ c ∈ l1, c.isDigit = true) (hB : ∀ c ∈ l2, c.isDigit = true) :
    matchXhYm (l1 ++ 'h' :: ' ' :: (l2 ++ ['m'])) = true := by
  obtain ⟨c2, cs2, rfl⟩ : ∃ c cs, l2 = c :: cs := by
    cases l2 with
    | nil => exact absurd rfl h2
    | cons a l => exact ⟨a, l, rfl⟩
  have hdig2 : c2.isDigit = true := hB c2 (by simp)
  have ht1 : (l1 ++ 'h' :: ' ' :: ((c2 :: cs2) ++ ['m'])).takeWhile Char.isDigit = l1 :=
    takeWhile_all_append _ 'h' (by decide) _ _ hA
  have hd1 : (l1 ++ 'h' :: ' ' :: ((c2 :: cs2) ++ ['m'])).dropWhile Char.isDigit
      = 'h' :: ' ' :: ((c2 :: cs2) ++ ['m']) :=
    dropWhile_all_append _ 'h' (by decide) _ _ hA
  have hw : ((' ' :: ((c2 :: cs2) ++ ['m'])).takeWhile pyIsSpace) = [' '] := by
    simp only [List.takeWhile_cons, List.cons_append]
    rw [show pyIsSpace ' ' = true from by decide, isDigit_not_pyspace hdig2]
    simp
  have hr3 : ((' ' :: ((c2 :: cs2) ++ ['m'])).dropWhile pyIsSpace) = (c2 :: cs2) ++ ['m'] := by
    simp only [List.dropWhile_cons, List.cons_append]
    rw [show pyIsSpace ' ' = true from by decide, isDigit_not_pyspace hdig2]
    simp
  have ht2 : ((c2 :: cs2) ++ ['m']).takeWhile Char.isDigit = c2 :: cs2 :=
    takeWhile_all_append _ 'm' (by decide) _ [] hB
  have hdw2 : ((c2 :: cs2) ++ ['m']).dropWhile Char.isDigit = ['m'] :=
    dropWhile_all_append _ 'm' (by decide) _ [] hB
  simp only [matchXhYm, ht1, hd1, hw, hr3, ht2, hdw2]
  simp [List.isEmpty_iff, h1]

theorem matchXhYm_fmtChars (a b : ℤ) (ha : 0 ≤ a) (hb : 0 ≤ b) :
    matchXhYm (fmtChars a b) = true := by
  rw [fmtChars, intStr_of_nonneg a ha, intStr_of_nonneg b hb]
  obtain ⟨c1, cs1, hc1, _⟩ := natChars_cons a.toNat
  obtain ⟨c2, cs2, hc2, _⟩ := natChars_cons b.toNat
  exact matchXhYm_shape _ _ (by rw [hc1]; simp) (by rw [hc2]; simp)
    (natChars_all_digit _) (natChars_all_digit _)

theorem dropWhile_cons_of_false {p : Char → Bool} {c : Char} (t : List Char)
    (h : p c = false) : (c :: t).dropWhile p = c :: t := by
  simp [List.dropWhile_cons, h]

theorem stripChars_fmtChars (a b : ℤ) : stripChars (fmtChars a b) = fmtChars a b := by
  obtain ⟨c, cs, hc, hns⟩ := intStr_head_not_space a
  have hshape : fmtChars a b = (intStr a ++ 'h' :: ' ' :: intStr b) ++ ['m'] := by
    simp [fmtChars]
  have hfront : (fmtChars a b).dropWhile pyIsSpace = fmtChars a b := by
    rw [fmtChars, hc, List.cons_append]
    exact dropWhile_cons_of_false _ hns
  have hback : (fmtChars a b).reverse.dropWhile pyIsSpace = (fmtChars a b).reverse := by
    rw [hshape, List.reverse_append, show (['m'] : List Char).reverse = ['m'] from rfl,
        List.singleton_append]
    exact dropWhile_cons_of_false _ (by decide)
  rw [stripChars, hfront, hback, List.reverse_reverse]

theorem fmtQ_eval (q : ℚ) (a b : ℤ) (h1 : truncQ q = a)
    (h2 : truncQ ((q - (a : ℚ)) * 60) = b) : fmtQ q = ⟨fmtChars a b⟩ := by
  rw [fmtQ, h1, h2]

theorem formatDuration_passthrough (s : String)
    (h : matchXhYm (stripChars s.data) = true) : formatDuration (.str s) = s := by
  rw [formatDuration, if_pos h]

theorem formatDuration_num_fix (q : ℚ) (hq : 0 ≤ q) :
    formatDuration (.str (formatDuration (.num q))) = formatDuration (.num q) := by
  have hfloor : (truncQ q : ℚ) ≤ q := by
    rw [truncQ_of_nonneg hq]
    exact_mod_cast Int.floor_le q
  have ha : 0 ≤ truncQ q := by
    rw [truncQ_of_nonneg hq]
    exact Int.floor_nonneg.mpr hq
  have hinner : 0 ≤ (q - (truncQ q : ℚ)) * 60 :=
    mul_nonneg (sub_nonneg.mpr hfloor) (by norm_num)
  have hb : 0 ≤ truncQ ((q - (truncQ q : ℚ)) * 60) := by
    rw [truncQ_of_nonneg hinner]
    exact Int.floor_nonneg.mpr hinner
  show formatDuration (.str (fmtQ q)) = fmtQ q
  apply formatDuration_passthrough
  show matchXhYm (stripChars (fmtChars _ _)) = true
  rw [stripChars_fmtChars]
  exact matchXhYm_fmtChars _ _ ha hb

/-! Claim C6: the numeric duration-normalization formula. -/

theorem floor_inner_255 : ((255 : ℚ)/128 - ((1 : ℤ) : ℚ)) * 60 = 1905 / 32 := by
  push_cast
  norm_num

/-- Claim C6 (counterexample): the code truncates the minutes value where
the claim states rounding; at hours value 255/128 (the binary float
1.9921875) the code produces "1h 59m" while the claimed formula gives
"1h 60m". -/
theorem c6_round_counterexample :
    formatDuration (.num (255/128)) = "1h 59m"
    ∧ durationSpecRound (255/128) = "1h 60m"
    ∧ formatDuration (.num (255/128)) ≠ durationSpecRound (255/128) := by
  have hfl : ⌊(255 : ℚ)/128⌋ = 1 := by norm_num [Int.floor_eq_iff]
  have h1 : truncQ ((255 : ℚ)/128) = 1 := by
    rw [truncQ_of_nonneg (by norm_num)]
    exact hfl
  have h2 : truncQ (((255 : ℚ)/128 - ((1 : ℤ) : ℚ)) * 60) = 59 := by
    rw [floor_inner_255, truncQ_of_nonneg (by norm_num)]
    norm_num [Int.floor_eq_iff]
  have hcode : formatDuration (.num (255/128)) = "1h 59m" := by
    show fmtQ (255/128) = "1h 59m"
    rw [fmtQ_eval _ 1 59 h1 h2]
    decide
  have hround : round (((255 : ℚ)/128 - ((1 : ℤ) : ℚ)) * 60) = 60 := by
    rw [floor_inner_255, round_eq]
    norm_num [Int.floor_eq_iff]
  have hspec : durationSpecRound (255/128) = "1h 60m" := by
    rw [durationSpecRound, hfl, hround]
    decide
  refine ⟨hcode, hspec, ?_⟩
  rw [hcode, hspec]
  decide

/-- Claim C6 (amended): for every non-negative numeric hours value v the
normalized string is "<h>h <m>m" with h = floor(v) and m = floor((v - h) *
60) (truncation, as in the code, rather than the claimed rounding); in
particular normalizing 1.5 yields "1h 30m" and 2.0 yields "2h 0m" (see the
witness). -/
theorem c6_numeric_formula (q : ℚ) (hq : 0 ≤ q) :
    formatDuration (.num q) = ⟨fmtChars ⌊q⌋ ⌊(q - (⌊q⌋ : ℚ)) * 60⌋⟩ := by
  have hfloor : ((⌊q⌋ : ℤ) : ℚ) ≤ q := Int.floor_le q
  have hinner : 0 ≤ (q - (⌊q⌋ : ℚ)) * 60 :=
    mul_nonneg (sub_nonneg.mpr hfloor) (by norm_num)
  show fmtQ q = _
  rw [fmtQ, truncQ_of_nonneg hq, truncQ_of_nonneg hinner]

/-- Claim C6 (witness): the amended formula applied at 1.5 and 2.0 gives
the example values the claim states. -/
theorem c6_numeric_formula_witness :
    (0 ≤ (3/2 : ℚ) ∧ formatDuration (.num (3/2)) = "1h 30m")
    ∧ (0 ≤ (2 : ℚ) ∧ formatDuration (.num 2) = "2h 0m") := by
  have ha : formatDuration (.num (3/2 : ℚ)) = "1h 30m" := by
    rw [c6_numeric_formula (3/2) (by norm_num)]
    have hfl : ⌊(3 : ℚ)/2⌋ = 1 := by norm_num [Int.floor_eq_iff]
    rw [hfl, show ((3 : ℚ)/2 - ((1 : ℤ) : ℚ)) * 60 = 30 by push_cast; norm_num]
    rw [show ⌊(30 : ℚ)⌋ = 30 by norm_num]
    decide
  have hb : formatDuration (.num (2 : ℚ)) = "2h 0m" := by
    rw [c6_numeric_formula 2 (by norm_num)]
    have hfl : ⌊(2 : ℚ)⌋ = 2 := by norm_num
    rw [hfl, show ((2 : ℚ) - ((2 : ℤ) : ℚ)) * 60 = 0 by push_cast; norm_num]
    rw [show ⌊(0 : ℚ)⌋ = 0 by norm_num]
    decide
  exact ⟨⟨by norm_num, ha⟩, ⟨by norm_num, hb⟩⟩

/-! Claim C9: idempotence of duration normalization. -/

/-- Claim C9 (counterexample): normalization is not idempotent on every
input: the numeric value -1/2 (the float -0.5) normalizes to "0h -30m",
and normalizing that result gives "0h 0m", not "0h -30m" again (the second
pass matches the leading digit 0 as a numeric prefix). -/
theorem c9_counterexample :
    formatDuration (.num (-1/2)) = "0h -30m"
    ∧ formatDuration (.str (formatDuration (.num (-1/2)))) = "0h 0m"
    ∧ formatDuration (.str (formatDuration (.num (-1/2))))
        ≠ formatDuration (.num (-1/2)) := by
  have h1 : truncQ ((-1 : ℚ)/2) = 0 := by
    rw [truncQ, if_neg (by norm_num)]
    norm_num [Int.floor_eq_iff]
  have h2 : truncQ (((-1 : ℚ)/2 - ((0 : ℤ) : ℚ)) * 60) = -30 := by
    rw [show ((-1 : ℚ)/2 - ((0 : ℤ) : ℚ)) * 60 = -30 by push_cast; norm_num]
    rw [truncQ, if_neg (by norm_num)]
    norm_num
  have hcode : formatDuration (.num (-1/2)) = "0h -30m" := by
    show fmtQ (-1/2) = "0h -30m"
    rw [fmtQ_eval _ 0 (-30) h1 h2]
    decide
  have hm : matchXhYm (stripChars ("0h -30m").data) = false := by decide
  have hl : leadNumParse ("0h -30m").data = some ((digitsVal ['0'] : ℕ) : ℚ) := rfl
  have hd0 : ((digitsVal ['0'] : ℕ) : ℚ) = 0 := by
    rw [show digitsVal ['0'] = 0 from by decide]
    norm_num
  have hsecond : formatDuration (.str "0h -30m") = "0h 0m" := by
    rw [formatDuration, if_neg (by rw [hm]; exact Bool.false_ne_true), hl, hd0]
    show fmtQ 0 = "0h 0m"
    have ha : truncQ (0 : ℚ) = 0 := by
      rw [truncQ_of_nonneg le_rfl]
      norm_num
    have hb : truncQ (((0 : ℚ) - ((0 : ℤ) : ℚ)) * 60) = 0 := by
      rw [show ((0 : ℚ) - ((0 : ℤ) : ℚ)) * 60 = 0 by push_cast; norm_num]
      rw [truncQ_of_nonneg le_rfl]
      norm_num
    rw [fmtQ_eval _ 0 0 ha hb]
    decide
  refine ⟨hcode, ?_, ?_⟩
  · rw [hcode]; exact hsecond
  · rw [hcode, hsecond]; decide

/-- Claim C9 (amended): normalization returns every input already matching
the "Xh Ym" pattern unchanged, and it is idempotent on every non-negative
numeric input; idempotence fails for negative fractional numeric inputs
such as -0.5 (see the counterexample). -/
theorem c9_idempotent :
    (∀ s : String, matchXhYm (stripChars s.data) = true → formatDuration (.str s) = s)
    ∧ (∀ q : ℚ, 0 ≤ q →
        formatDuration (.str (formatDuration (.num q))) = formatDuration (.num q)) :=
  ⟨formatDuration_passthrough, formatDuration_num_fix⟩

/-- Claim C9 (witness): the pattern "1h 30m" passes through unchanged, and
normalizing the normalization of 1.5 returns it unchanged. -/
theorem c9_idempotent_witness :
    (matchXhYm (stripChars ("1h 30m").data) = true
      ∧ formatDuration (.str "1h 30m") = "1h 30m")
    ∧ ((0 : ℚ) ≤ 3/2
      ∧ formatDuration (.str (formatDuration (.num (3/2)))) = formatDuration (.num (3/2))) :=
  ⟨⟨by decide, c9_idempotent.1 _ (by decide)⟩,
   ⟨by norm_num, c9_idempotent.2 (3/2) (by norm_num)⟩⟩

/-! Helper lemmas about the extraction stage and the pipeline record. -/

theorem pickField_none {α : Type} (x : Option α) : pickField x none = x := by
  cases x <;> rfl

theorem extract_failure_eq (text tCreate msg : String) (dateNorm : String → Option String) :
    ExtractionManager.extract text tCreate (.failure msg) dateNorm =
      { notes := some text, timestamp := some tCreate,
        extraction_status := some .failed, extraction_error := some msg } := rfl

theorem extract_timestamp (text tCreate : String) (llm : LLMCall)
    (dateNorm : String → Option String) :
    (ExtractionManager.extract text tCreate llm dateNorm).timestamp =
      some (match llm with | .success _ llmTime => llmTime | .failure _ => tCreate) := by
  cases llm with
  | failure msg => rfl
  | success raw llmTime =>
      rw [ExtractionManager.extract]
      dsimp only
      split <;> rfl

theorem extract_notification_fields (text tCreate : String) (llm : LLMCall)
    (dateNorm : String → Option String) :
    (ExtractionManager.extract text tCreate llm dateNorm).notification_status = none
    ∧ (ExtractionManager.extract text tCreate llm dateNorm).storage_status = none := by
  cases llm with
  | failure msg => exact ⟨rfl, rfl⟩
  | success raw llmTime =>
      rw [ExtractionManager.extract]
      split <;> exact ⟨rfl, rfl⟩

theorem withDefaultTimestamp_proj (md : MeetingData) (t : String) :
    (withDefaultTimestamp md t).extraction_status = md.extraction_status
    ∧ (withDefaultTimestamp md t).extraction_error = md.extraction_error
    ∧ (withDefaultTimestamp md t).notes = md.notes
    ∧ (withDefaultTimestamp md t).customer_name = md.customer_name
    ∧ (withDefaultTimestamp md t).total_hours = md.total_hours
    ∧ (withDefaultTimestamp md t).notification_status = md.notification_status := by
  rw [withDefaultTimestamp]
  split <;> exact ⟨rfl, rfl, rfl, rfl, rfl, rfl⟩

theorem withDefaultTimestamp_of_truthy (md : MeetingData) (t ts : String)
    (h : md.timestamp = some ts) (hne : ts ≠ "") : withDefaultTimestamp md t = md := by
  rw [withDefaultTimestamp, if_pos]
  rw [h]
  simpa [truthyO] using hne

theorem core_storage_called (t : String) (se : StageEnv) :
    (upload_audio_core t se).2.storageCalled = true := by
  rw [upload_audio_core]
  split
  · split
    · rfl
    · rfl
  · rfl

theorem upload_audio_completed (env : UploadEnv) (text : String) (b : Bool)
    (hnotify : env.notify = some b)
    (htr : env.transcription = .completed text)
    (hext : validExtension env.filename = true)
    (hne : env.content.isEmpty = false)
    (hsize : env.content.length ≤ 5 * 1024 * 1024) :
    upload_audio env =
      (.response true "Audio processed and data stored successfully"
        (some (upload_audio_core text { env.toStageEnv with should_notify := b }).1),
       { transcriptionCalled := true, extractionCalled := true,
         storageCalled :=
           (upload_audio_core text { env.toStageEnv with should_notify := b }).2.storageCalled,
         notificationCalled :=
           (upload_audio_core text
             { env.toStageEnv with should_notify := b }).2.notificationCalled,
         backgroundScheduled := false }) := by
  rw [upload_audio, hnotify, hext, hne, htr]
  simp only [Bool.not_true, Bool.false_eq_true, if_false]
  rw [if_neg (Nat.not_lt.mpr hsize)]

theorem core_failure_fields (t : String) (se : StageEnv) (msg : String)
    (h : se.llm = .failure msg) :
    (upload_audio_core t se).1.extraction_status = some .failed
    ∧ (upload_audio_core t se).1.extraction_error = some msg
    ∧ (upload_audio_core t se).1.notes = some (withHints t se.customer_hint se.date_hint) := by
  rw [upload_audio_core, h, extract_failure_eq]
  obtain ⟨he, hee, hn, -, -, -⟩ := withDefaultTimestamp_proj
    { notes := some (withHints t se.customer_hint se.date_hint), timestamp := some se.tCreate,
      extraction_status := some .failed, extraction_error := some msg } se.tStore
  rcases hst : se.storage with _ | m | m <;>
    simp only [hst, GoogleSheetsStorage.store_meeting_data]
  · split
    · split <;> exact ⟨he, hee, hn⟩
    · exact ⟨he, hee, hn⟩
  · split
    · split <;> exact ⟨rfl, rfl, rfl⟩
    · exact ⟨rfl, rfl, rfl⟩
  · split
    · split <;> exact ⟨he, hee, hn⟩
    · exact ⟨he, hee, hn⟩

theorem core_timestamp (t : String) (se : StageEnv) (ts : String)
    (hts : (ExtractionManager.extract (withHints t se.customer_hint se.date_hint)
              se.tCreate se.llm se.dateNorm).timestamp = some ts)
    (hne : ts ≠ "") :
    (upload_audio_core t se).1.timestamp = some ts := by
  have hkeep := withDefaultTimestamp_of_truthy _ se.tStore ts hts hne
  rw [upload_audio_core]
  rcases hst : se.storage with _ | m | m <;>
    simp only [hst, GoogleSheetsStorage.store_meeting_data, hkeep]
  · split
    · split <;> exact hts
    · exact hts
  · split
    · split <;> exact hts
    · exact hts
  · split
    · split <;> exact hts
    · exact hts

/-- Claim C3 (amended): the SKIPPED status with a reason distinguishing
"not requested" from "no channels enabled" is set only when
storage_status is STORED and notification is not attempted; when storage
did not succeed (including when notify_requested is false) the returned
record's notification_status is left unset, not SKIPPED. -/
theorem c3_notification_skip (t : String) (se : StageEnv) :
    (se.storage = .ok → se.should_notify = false →
        (upload_audio_core t se).1.notification_status = some .skipped
        ∧ (upload_audio_core t se).1.notification_message
            = some "Notifications not requested")
    ∧ (se.storage = .ok → se.should_notify = true →
        se.settings.ENABLE_EMAIL_NOTIFICATIONS = false →
        se.settings.ENABLE_SLACK_NOTIFICATIONS = false →
        (upload_audio_core t se).1.notification_status = some .skipped
        ∧ (upload_audio_core t se).1.notification_message
            = some "No notification channels enabled")
    ∧ (∀ m, se.storage = .initError m ∨ se.storage = .appendError m →
        (upload_audio_core t se).1.notification_status = none) := by
  obtain ⟨hen, -⟩ := extract_notification_fields
    (withHints t se.customer_hint se.date_hint) se.tCreate se.llm se.dateNorm
  obtain ⟨-, -, -, -, -, hwn⟩ := withDefaultTimestamp_proj
    (ExtractionManager.extract (withHints t se.customer_hint se.date_hint)
      se.tCreate se.llm se.dateNorm) se.tStore
  refine ⟨?_, ?_, ?_⟩
  · intro h1 h2
    rw [upload_audio_core]
    simp only [h1, GoogleSheetsStorage.store_meeting_data]
    split
    · simp [h2]
    · next hfalse => exact absurd rfl hfalse
  · intro h1 h2 h3 h4
    rw [upload_audio_core]
    simp only [h1, GoogleSheetsStorage.store_meeting_data]
    split
    · simp [h2, h3, h4]
    · next hfalse => exact absurd rfl hfalse
  · rintro m (hm | hm) <;> rw [upload_audio_core] <;>
      simp only [hm, GoogleSheetsStorage.store_meeting_data]
    · split
      · next htrue => exact absurd htrue (by decide)
      · exact hen
    · split
      · next htrue => exact absurd htrue (by decide)
      · exact hwn.trans hen

/-- Claim C3 (witness): a run with STORED storage and notifications not
requested gets SKIPPED with the "not requested" reason; with
notifications requested but no channel enabled it gets the "no channels"
reason; a storage-failure run keeps notification_status unset. -/
theorem c3_notification_skip_witness :
    (({ should_notify := false } : StageEnv).storage = .ok
      ∧ ({ should_notify := false } : StageEnv).should_notify = false
      ∧ (upload_audio_core "hey" { should_notify := false }).1.notification_status
          = some .skipped
      ∧ (upload_audio_core "hey" { should_notify := false }).1.notification_message
          = some "Notifications not requested")
    ∧ (({ should_notify := true, storage := .initError "sheet down" } : StageEnv).storage
          = .initError "sheet down"
      ∧ (upload_audio_core "hey"
          { should_notify := true,
            storage := .initError "sheet down" }).1.notification_status
          = none) :=
  ⟨⟨rfl, rfl,
    ((c3_notification_skip "hey" { should_notify := false }).1 rfl rfl).1,
    ((c3_notification_skip "hey" { should_notify := false }).1 rfl rfl).2⟩,
   ⟨rfl,
    (c3_notification_skip "hey"
      { should_notify := true, storage := .initError "sheet down" }).2.2
      "sheet down" (Or.inl rfl)⟩⟩

/-- Claim C3 (counterexample): in a run where storage fails (so
storage_status is FAILED) and notify_requested is false, the returned
record has no notification_status at all, contradicting the claim that it
is always set to SKIPPED when notification is not attempted. -/
theorem c3_counterexample :
    (responseData (upload_audio envC3).1).map MeetingData.storage_status
      = some (some StorageStatus.failed)
    ∧ (responseData (upload_audio envC3).1).map MeetingData.notification_status
      = some none
    ∧ (responseData (upload_audio envC3).1).map MeetingData.notification_status
      ≠ some (some NotificationStatus.skipped) := by
  refine ⟨by decide, by decide, by decide⟩

/-- Claim C1 (counterexample): a request whose extraction hard-fails (the
record ends with extraction_status = FAILED) still has its storage stage
attempted, contradicting the claim that StoragePort.store is called only
when extraction_status is COMPLETE or INCOMPLETE. -/
theorem c1_counterexample :
    (upload_audio envC1).2.storageCalled = true
    ∧ (responseData (upload_audio envC1).1).map MeetingData.extraction_status
        = some (some ExtractionStatus.failed) := by
  refine ⟨by decide, by decide⟩

/-- Claim C1 (amended): for every request that passes input validation and
transcribes successfully, the storage stage is attempted unconditionally
on the record extraction returns, regardless of its extraction_status
(including FAILED). -/
theorem c1_storage_unconditional (env : UploadEnv) (text : String) (b : Bool)
    (hnotify : env.notify = some b)
    (htr : env.transcription = .completed text)
    (hext : validExtension env.filename = true)
    (hne : env.content.isEmpty = false)
    (hsize : env.content.length ≤ 5 * 1024 * 1024) :
    (upload_audio env).2.storageCalled = true := by
  rw [upload_audio_completed env text b hnotify htr hext hne hsize]
  exact core_storage_called text { env.toStageEnv with should_notify := b }

/-- Claim C1 (witness): the amended statement applied to a concrete run
whose extraction fails. -/
theorem c1_storage_unconditional_witness :
    envC1.notify = some false
    ∧ envC1.transcription = .completed "hello"
    ∧ validExtension envC1.filename = true
    ∧ envC1.content.isEmpty = false
    ∧ envC1.content.length ≤ 5 * 1024 * 1024
    ∧ (upload_audio envC1).2.storageCalled = true :=
  ⟨rfl, rfl, by decide, by decide, by decide,
   c1_storage_unconditional envC1 "hello" false rfl rfl (by decide) (by decide) (by decide)⟩

/-- Claim C2 (counterexample): a well-formed upload that omits the
optional notify form field fails with an unhandled AttributeError (HTTP
500) before validation and transcription ever run, even though its input
is valid and its transcription oracle would succeed - contradicting the
claim that only a transcription failure or malformed/empty input raises. -/
theorem c2_counterexample :
    envC2cx.transcription = .completed "hola"
    ∧ validExtension envC2cx.filename = true
    ∧ envC2cx.content.isEmpty = false
    ∧ envC2cx.content.length ≤ 5 * 1024 * 1024
    ∧ upload_audio envC2cx =
        (.serverError
          "AttributeError: Settings object has no attribute NOTIFICATIONS_DEFAULT",
         { transcriptionCalled := false, extractionCalled := false, storageCalled := false,
           notificationCalled := false, backgroundScheduled := false })
    ∧ responseSuccess (upload_audio envC2cx).1 ≠ some true := by
  refine ⟨rfl, by decide, by decide, by decide, by decide, by decide⟩

/-- Claim C2 (amended): for every audio submission that supplies an
explicit notify value, passes input validation and transcribes
successfully, the route returns a success response carrying the pipeline
record and never raises for extraction, storage or notification failures,
whatever the stage oracles do; when extraction raised, the carried record
has extraction_status = FAILED, the recorded error message, and its notes
field still carries the exact text handed to extraction (the raw
transcript when no hints were given).  A submission without an explicit
notify value instead raises AttributeError at speech.py line 138, before
validation (see the counterexample). -/
theorem c2_no_raise (env : UploadEnv) (text : String) (b : Bool)
    (hnotify : env.notify = some b)
    (htr : env.transcription = .completed text)
    (hext : validExtension env.filename = true)
    (hne : env.content.isEmpty = false)
    (hsize : env.content.length ≤ 5 * 1024 * 1024) :
    (upload_audio env).1 =
      .response true "Audio processed and data stored successfully"
        (some (upload_audio_core text { env.toStageEnv with should_notify := b }).1)
    ∧ (∀ msg, env.toStageEnv.llm = .failure msg →
        (upload_audio_core text
            { env.toStageEnv with should_notify := b }).1.extraction_status = some .failed
        ∧ (upload_audio_core text
            { env.toStageEnv with should_notify := b }).1.extraction_error = some msg
        ∧ (upload_audio_core text { env.toStageEnv with should_notify := b }).1.notes
            = some (withHints text env.toStageEnv.customer_hint env.toStageEnv.date_hint))
    ∧ (env.toStageEnv.customer_hint = none → env.toStageEnv.date_hint = none →
        withHints text env.toStageEnv.customer_hint env.toStageEnv.date_hint = text) := by
  refine ⟨?_, ?_, ?_⟩
  · rw [upload_audio_completed env text b hnotify htr hext hne hsize]
  · intro msg h
    exact core_failure_fields text { env.toStageEnv with should_notify := b } msg h
  · intro h1 h2
    rw [withHints, h1, h2]
    rfl

/-- Claim C2 (witness): the amended theorem applied to a concrete run,
with notify supplied, whose LLM extraction raises. -/
theorem c2_no_raise_witness :
    envC2.notify = some false
    ∧ envC2.transcription = .completed "hola"
    ∧ validExtension envC2.filename = true
    ∧ envC2.content.isEmpty = false
    ∧ envC2.content.length ≤ 5 * 1024 * 1024
    ∧ (upload_audio envC2).1 =
        .response true "Audio processed and data stored successfully"
          (some (upload_audio_core "hola"
                  { envC2.toStageEnv with should_notify := false }).1)
    ∧ (upload_audio_core "hola"
        { envC2.toStageEnv with should_notify := false }).1.extraction_status = some .failed
    ∧ (upload_audio_core "hola"
        { envC2.toStageEnv with should_notify := false }).1.notes = some "hola" :=
  ⟨rfl, rfl, by decide, by decide, by decide,
   (c2_no_raise envC2 "hola" false rfl rfl (by decide) (by decide) (by decide)).1,
   ((c2_no_raise envC2 "hola" false rfl rfl (by decide) (by decide) (by decide)).2.1
      "provider down" rfl).1,
   ((c2_no_raise envC2 "hola" false rfl rfl (by decide) (by decide) (by decide)).2.1
      "provider down" rfl).2.2⟩

/-- Claim C7 (counterexample): the record's timestamp set at creation time
"T0" is overwritten by the extractor's own timestamp "T1" when the LLM
call succeeds, so the returned record does not carry the creation
timestamp. -/
theorem c7_counterexample :
    envC7.tCreate = "T0"
    ∧ (responseData (upload_audio envC7).1).map MeetingData.timestamp
        = some (some "T1")
    ∧ (responseData (upload_audio envC7).1).map MeetingData.timestamp
        ≠ some (some "T0") := by
  refine ⟨rfl, by decide, by decide⟩

/-- Claim C7 (amended): the returned record's timestamp is the creation
timestamp only when extraction failed; when the LLM call succeeds the
merge loop overwrites it with the extraction stage's own timestamp.  In
both cases storage never overwrites a non-empty timestamp. -/
theorem c7_timestamp_provenance (t : String) (se : StageEnv) :
    (∀ msg, se.llm = .failure msg → se.tCreate ≠ "" →
        (upload_audio_core t se).1.timestamp = some se.tCreate)
    ∧ (∀ raw llmTime, se.llm = .success raw llmTime → llmTime ≠ "" →
        (upload_audio_core t se).1.timestamp = some llmTime) := by
  constructor
  · intro msg h hne
    apply core_timestamp t se se.tCreate _ hne
    rw [extract_timestamp, h]
  · intro raw llmTime h hne
    apply core_timestamp t se llmTime _ hne
    rw [extract_timestamp, h]

/-- Claim C7 (witness): the amended statement applied to a run whose
extraction succeeds at time "T1" on a record created at "T0". -/
theorem c7_timestamp_provenance_witness :
    envC7.toStageEnv.llm = .success {} "T1"
    ∧ ("T1" : String) ≠ ""
    ∧ (upload_audio_core "hiya" envC7.toStageEnv).1.timestamp = some "T1" :=
  ⟨rfl, by decide,
   (c7_timestamp_provenance "hiya" envC7.toStageEnv).2 {} "T1" rfl (by decide)⟩

/-- Claim C8: for every text input (and every provider behaviour), the
extraction stage returns a record whose extraction_status is COMPLETE,
INCOMPLETE or FAILED - never PENDING or PROCESSING - and it is COMPLETE
exactly when customer_name and total_hours are both non-null. -/
theorem c8_extraction_status (text tCreate : String) (llm : LLMCall)
    (dateNorm : String → Option String) :
    ((ExtractionManager.extract text tCreate llm dateNorm).extraction_status
        = some .complete
      ∨ (ExtractionManager.extract text tCreate llm dateNorm).extraction_status
        = some .incomplete
      ∨ (ExtractionManager.extract text tCreate llm dateNorm).extraction_status
        = some .failed)
    ∧ ((ExtractionManager.extract text tCreate llm dateNorm).extraction_status
          = some .complete
        ↔ ((ExtractionManager.extract text tCreate llm dateNorm).customer_name ≠ none
            ∧ (ExtractionManager.extract text tCreate llm dateNorm).total_hours ≠ none)) := by
  cases llm with
  | failure msg =>
      rw [extract_failure_eq]
      exact ⟨Or.inr (Or.inr rfl), by simp⟩
  | success raw llmTime =>
      rw [ExtractionManager.extract]
      split
      · next hc =>
          refine ⟨Or.inl rfl, ?_⟩
          simp only [Bool.and_eq_true, Option.isSome_iff_ne_none] at hc
          exact ⟨fun _ => ⟨hc.1, hc.2⟩, fun _ => rfl⟩
      · next hc =>
          refine ⟨Or.inr (Or.inl rfl), ?_⟩
          constructor
          · intro h
            exact absurd h (by simp)
          · rintro ⟨h1, h2⟩
            exact absurd (by simp only [Bool.and_eq_true, Option.isSome_iff_ne_none];
                             exact ⟨h1, h2⟩) hc

/-- Claim C10 (counterexample): a 5 MB + 1 byte upload with a valid
extension that omits the notify form field does not get the immediate
success response: the should_notify computation at speech.py line 138
runs before the size check and raises AttributeError, so the request
fails with HTTP 500. -/
theorem c10_counterexample :
    validExtension envC10cx.filename = true
    ∧ 5 * 1024 * 1024 < envC10cx.content.length
    ∧ (upload_audio envC10cx).1
        = .serverError
            "AttributeError: Settings object has no attribute NOTIFICATIONS_DEFAULT"
    ∧ responseSuccess (upload_audio envC10cx).1 ≠ some true := by
  refine ⟨by decide, ?_, by decide, by decide⟩
  show 5 * 1024 * 1024 < (List.replicate (5 * 1024 * 1024 + 1) 0).length
  rw [List.length_replicate]
  omega

/-- Claim C10 (amended): every upload that supplies an explicit notify
value and has a valid extension and content exceeding 5 * 1024 * 1024
bytes returns immediately with success = True and data = None, and no
transcription, extraction, storage or notification runs and no background
task is scheduled, even though the response message announces background
processing; an upload without an explicit notify value crashes at
speech.py line 138 before the size check (see the counterexample). -/
theorem c10_large_upload (env : UploadEnv) (b : Bool)
    (hnotify : env.notify = some b)
    (hext : validExtension env.filename = true)
    (hsize : 5 * 1024 * 1024 < env.content.length) :
    upload_audio env =
      (.response true (bgMessage env) none,
       { transcriptionCalled := false, extractionCalled := false, storageCalled := false,
         notificationCalled := false, backgroundScheduled := false }) := by
  have hne : env.content.isEmpty = false := by
    cases hcc : env.content with
    | nil => rw [hcc] at hsize; simp at hsize
    | cons a l => rfl
  rw [upload_audio, hnotify, hext, hne]
  simp only [Bool.not_true, Bool.false_eq_true, if_false]
  rw [if_pos hsize]

/-- Claim C10 (witness): a 5 MB + 1 byte upload of a valid mp3 file with
notify supplied. -/
theorem c10_large_upload_witness :
    envC10.notify = some false
    ∧ validExtension envC10.filename = true
    ∧ 5 * 1024 * 1024 < envC10.content.length
    ∧ upload_audio envC10 =
        (.response true (bgMessage envC10) none,
         { transcriptionCalled := false, extractionCalled := false, storageCalled := false,
           notificationCalled := false, backgroundScheduled := false }) := by
  have h2 : 5 * 1024 * 1024 < envC10.content.length := by
    show 5 * 1024 * 1024 < (List.replicate (5 * 1024 * 1024 + 1) 0).length
    rw [List.length_replicate]
    omega
  exact ⟨rfl, by decide, h2, c10_large_upload envC10 false rfl (by decide) h2⟩

/-- Claim C4 (counterexample): on a transport failure the email channel
reports FAILED after exactly one send attempt, with no retry, even though
a second attempt would have succeeded - contradicting the claimed
retry-up-to-a-maximum policy. -/
theorem c4_counterexample :
    (EmailNotifier.send_meeting_notification cfgC4 transportC4).1.status
      = ChannelStatus.failed
    ∧ (EmailNotifier.send_meeting_notification cfgC4 transportC4).2 = 1
    ∧ transportC4 1 = none := by
  refine ⟨by decide, by decide, by decide⟩

/-- Claim C4 (amended): the email channel performs exactly one send
attempt and reports FAILED immediately on a transport failure, with no
retry; when configuration is incomplete (no recipients, or missing SMTP
server, sender email, or password) it reports SKIPPED with no send
attempt. -/
theorem c4_single_attempt (cfg : EmailConfig) (transport : Nat → Option String) :
    (cfg.recipient_emails = [] →
        (EmailNotifier.send_meeting_notification cfg transport).1.status = .skipped
        ∧ (EmailNotifier.send_meeting_notification cfg transport).2 = 0)
    ∧ (cfg.recipient_emails ≠ [] →
        (cfg.smtp_server = "" ∨ cfg.sender_email = "" ∨ cfg.sender_password = "") →
        (EmailNotifier.send_meeting_notification cfg transport).1.status = .skipped
        ∧ (EmailNotifier.send_meeting_notification cfg transport).2 = 0)
    ∧ (cfg.recipient_emails ≠ [] → cfg.smtp_server ≠ "" → cfg.sender_email ≠ "" →
        cfg.sender_password ≠ "" →
        (EmailNotifier.send_meeting_notification cfg transport).2 = 1
        ∧ (EmailNotifier.send_meeting_notification cfg transport).1.status
            = (if transport 0 = none then ChannelStatus.sent else ChannelStatus.failed)) := by
  refine ⟨?_, ?_, ?_⟩
  · intro h
    rw [EmailNotifier.send_meeting_notification, if_pos (by simp [h])]
    exact ⟨rfl, rfl⟩
  · intro h1 h2
    rw [EmailNotifier.send_meeting_notification,
        if_neg (by simp [List.isEmpty_iff, h1]),
        if_pos (by simp only [Bool.or_eq_true, beq_iff_eq]; tauto)]
    exact ⟨rfl, rfl⟩
  · intro h1 h2 h3 h4
    rw [EmailNotifier.send_meeting_notification,
        if_neg (by simp [List.isEmpty_iff, h1]), if_neg (by simp [h2, h3, h4])]
    rcases ht : transport 0 with _ | e
    · rw [if_pos rfl]
      exact ⟨rfl, rfl⟩
    · rw [if_neg (by simp [ht])]
      exact ⟨rfl, rfl⟩

/-- Claim C4 (witness): the amended statement applied to a complete
configuration and a transport that fails the first attempt. -/
theorem c4_single_attempt_witness :
    cfgC4.recipient_emails ≠ []
    ∧ cfgC4.smtp_server ≠ "" ∧ cfgC4.sender_email ≠ "" ∧ cfgC4.sender_password ≠ ""
    ∧ (EmailNotifier.send_meeting_notification cfgC4 transportC4).2 = 1
    ∧ (EmailNotifier.send_meeting_notification cfgC4 transportC4).1.status
        = (if transportC4 0 = none then ChannelStatus.sent else ChannelStatus.failed) :=
  ⟨by decide, by decide, by decide, by decide,
   ((c4_single_attempt cfgC4 transportC4).2.2 (by decide) (by decide) (by decide)
      (by decide)).1,
   ((c4_single_attempt cfgC4 transportC4).2.2 (by decide) (by decide) (by decide)
      (by decide)).2⟩

/-- Claim C5 (counterexample): with both channels enabled, one reporting
SENT and the other FAILED, the aggregate overall status is SENT, not
PARTIAL as claimed; the per-channel outcomes are preserved. -/
theorem c5_counterexample :
    (NotificationManager.fanout true true
        { notification_type := "email", status := .sent }
        { notification_type := "slack", status := .failed }).overall_status
      = NotificationStatus.sent
    ∧ (NotificationManager.fanout true true
        { notification_type := "email", status := .sent }
        { notification_type := "slack", status := .failed }).overall_status
      ≠ NotificationStatus.partialStatus
    ∧ (NotificationManager.fanout true true
        { notification_type := "email", status := .sent }
        { notification_type := "slack", status := .failed }).channels.map
          (fun c => (c.ctype, c.status))
      = [("email", ChannelStatus.sent), ("slack", ChannelStatus.failed)] := by
  refine ⟨by decide, by decide, by decide⟩

/-- Claim C5 (amended): for every fanout run over two enabled channels,
each channel's individual outcome is preserved in the per-channel detail
list, and the aggregate is SENT as soon as at least one channel reports
SENT (in particular for one SENT and one FAILED channel), and PARTIAL
only when neither does. -/
theorem c5_aggregate (er sr : ChannelResult) :
    (NotificationManager.fanout true true er sr).channels
      = [ChannelEntry.mk "email" er.status er, ChannelEntry.mk "slack" sr.status sr]
    ∧ (NotificationManager.fanout true true er sr).overall_status
      = (if er.status = .sent ∨ sr.status = .sent then NotificationStatus.sent
         else NotificationStatus.partialStatus) := by
  rw [NotificationManager.fanout]
  by_cases h1 : er.status = ChannelStatus.sent <;>
    by_cases h2 : sr.status = ChannelStatus.sent <;>
    simp [h1, h2]
